import Mathlib

/-!
Shallow embedding of the household chore bot (`src/bot.py`).

Dates (`YYYY-MM-DD` strings in the database) are modelled as integer day
numbers: Python `date` arithmetic with `timedelta(days=n)` is exact day
arithmetic and string comparison of ISO dates agrees with day-number
equality.  The ambient `date.today()` is made an explicit parameter
`today : Int`.  Reminder times stay `String`s compared for equality, as
in the source.  Database rows become Lean structures and the mutable
sqlite state becomes an explicit `DB` value threaded through operations.
-/

namespace ChoreBot

/-- A row of the `chores` table, column for column
(id, name, category, mode, assignee, interval_days, start_date, time,
last_done, last_reminded, skip_until). -/
structure Chore where
  id : Nat
  name : String
  category : Option String
  mode : String
  assignee : String
  interval_days : Int
  start_date : Option Int
  time : String
  last_done : Option Int
  last_reminded : Option Int
  skip_until : Option Int
  deriving Repr, DecidableEq

/-- A row of the append-only `completions` table. -/
structure Completion where
  chore_id : Nat
  chore_name : String
  assigned_to : String
  completed_by : String
  completed_on : Int
  completed_at : Nat
  deriving Repr, DecidableEq

/-- The singleton `household` row: two optional person names and the
rotation cursor (`rotate_index`, default 0, only ever reset to 0 or
incremented, hence a `Nat`). -/
structure Household where
  person1 : Option String
  person2 : Option String
  rotate_index : Nat
  deriving Repr, DecidableEq

/-- The persistent store: household row, chores table, completions log. -/
structure DB where
  household : Household
  chores : List Chore
  completions : List Completion
  deriving Repr, DecidableEq

/-- `next_due_date` from `bot.py`: if `last_done` exists, it is
`last_done + interval_days`; else `start_date` when set; else today. -/
def next_due_date (today : Int) (start_date : Option Int)
    (last_done : Option Int) (interval_days : Int) : Int :=
  match last_done with
  | some base => base + interval_days
  | none =>
    match start_date with
    | some s => s
    | none => today

/-- `days_until_due` from `bot.py`: `(due_dt - date.today()).days`. -/
def days_until_due (today : Int) (c : Chore) : Int :=
  next_due_date today c.start_date c.last_done c.interval_days - today

/-- `chore_is_due` from `bot.py`: false when `skip_until == today_str()`,
otherwise `days_until_due <= 0`. -/
def chore_is_due (today : Int) (c : Chore) : Bool :=
  if c.skip_until = some today then false
  else days_until_due today c ≤ 0

/-- `next_rotate_person` from `bot.py`.  Returns the chosen name together
with the updated store.  When either person is unset it returns the
literal string "rotate" without touching the cursor; otherwise it picks
`person1` on an even cursor, `person2` on an odd one, and (when
`advance`) increments the cursor by one. -/
def next_rotate_person (advance : Bool) (db : DB) : String × DB :=
  match db.household.person1, db.household.person2 with
  | some p1, some p2 =>
    let idx := db.household.rotate_index
    let person := if idx % 2 = 0 then p1 else p2
    if advance then
      (person,
        { db with household := { db.household with rotate_index := idx + 1 } })
    else (person, db)
  | _, _ => ("rotate", db)

/-- The `UPDATE chores SET last_done=?, skip_until=NULL, last_reminded=NULL
WHERE id=?` statement inside `record_completion`, applied row-wise. -/
def mark_done_row (chore_id : Nat) (today : Int) (ch : Chore) : Chore :=
  if ch.id = chore_id then
    { ch with last_done := some today, skip_until := none,
              last_reminded := none }
  else ch

/-- `record_completion` from `bot.py`.  Looks the chore up by id; on a
miss returns the "Chore not found." error and an unchanged store.  On a
hit it updates `last_done`/`skip_until`/`last_reminded` on that chore,
appends one completion row snapshotting name and assignee, and returns
`(name, assigned_to, completed_by, interval_days)`. -/
def record_completion (chore_id : Nat) (completed_by : String)
    (today : Int) (now : Nat) (db : DB) :
    Except String (String × String × String × Int) × DB :=
  match db.chores.find? (fun ch => ch.id = chore_id) with
  | none => (Except.error "Chore not found.", db)
  | some c =>
    let chores' := db.chores.map (mark_done_row chore_id today)
    let row : Completion :=
      { chore_id := chore_id, chore_name := c.name,
        assigned_to := c.assignee, completed_by := completed_by,
        completed_on := today, completed_at := now }
    (Except.ok (c.name, c.assignee, completed_by, c.interval_days),
      { db with chores := chores', completions := db.completions ++ [row] })

/-- Replies the id-addressed command handlers can give, abstracting the
chat messages of `bot.py`. -/
inductive Reply where
  | skippedForToday
  | removed
  | notFound
  | doneOk
  deriving Repr, DecidableEq

/-- `cmd_skip` from `bot.py` (after argument parsing): a `SELECT id`
existence check, then `UPDATE chores SET skip_until=today WHERE id=?`.
On a missing id it replies "Chore #id not found." and changes nothing.
Note: it does not touch `last_reminded`. -/
def cmd_skip (chore_id : Nat) (today : Int) (db : DB) : Reply × DB :=
  if db.chores.any (fun ch => ch.id = chore_id) then
    (Reply.skippedForToday,
      { db with chores := db.chores.map (fun ch =>
          if ch.id = chore_id then { ch with skip_until := some today }
          else ch) })
  else (Reply.notFound, db)

/-- The `skip:` inline-button branch of `callbacks` in `bot.py`:
an unconditional `UPDATE chores SET skip_until=today WHERE id=?`
(no existence check, no change to `last_reminded`). -/
def callback_skip (chore_id : Nat) (today : Int) (db : DB) : DB :=
  { db with chores := db.chores.map (fun ch =>
      if ch.id = chore_id then { ch with skip_until := some today }
      else ch) }

/-- `cmd_remove` from `bot.py` (after argument parsing): an unconditional
`DELETE FROM chores WHERE id=?` followed by the reply "Removed.", with
no existence check. -/
def cmd_remove (chore_id : Nat) (db : DB) : Reply × DB :=
  (Reply.removed,
    { db with chores := db.chores.filter (fun ch => ¬ ch.id = chore_id) })

/-- One chore's treatment inside `reminder_job` from `bot.py`: skip the
chore unless its configured time equals the current time, it has not
been reminded today, and it is due; otherwise fire (the `Bool`) and set
`last_reminded := today`. -/
def reminder_step (now : String) (today : Int) (c : Chore) : Bool × Chore :=
  if ¬ c.time = now then (false, c)
  else if c.last_reminded = some today then (false, c)
  else if ¬ chore_is_due today c then (false, c)
  else (true, { c with last_reminded := some today })

/-- `reminder_job` over the whole table: each row is examined once per
run; the by-id `UPDATE` matches exactly the examined row because `id` is
the primary key, so the scan is row-wise.  Returns the fired chores'
ids and the updated store. -/
def reminder_job (now : String) (today : Int) (db : DB) : List Nat × DB :=
  let processed := db.chores.map (reminder_step now today)
  ((processed.filter (fun p => p.1)).map (fun p => p.2.id),
    { db with chores := processed.map (fun p => p.2) })

/-- The wizard's session steps, as stored in the `sessions` table. -/
inductive Step where
  | ASK_NAME
  | ASK_ASSIGNEE
  | ASK_CATEGORY
  | ASK_INTERVAL
  | ASK_START_DATE
  | ASK_TIME
  deriving Repr, DecidableEq

/-- The wizard's accumulated `data` JSON blob. -/
structure WizData where
  name : Option String
  mode : Option String
  assignee : Option String
  category : Option String
  interval_days : Option Int
  start_date : Option Int
  time : Option String
  deriving Repr, DecidableEq

/-- The empty wizard blob created by `/add`. -/
def WizData.empty : WizData :=
  { name := none, mode := none, assignee := none, category := none,
    interval_days := none, start_date := none, time := none }

/-- Python `str.strip()`: drop whitespace from both ends.  Implemented
over the character list so concrete inputs evaluate by kernel
reduction. -/
def pyStrip (s : String) : String :=
  ⟨((s.data.dropWhile Char.isWhitespace).reverse.dropWhile
      Char.isWhitespace).reverse⟩

/-- Python `str.lower()`: lower-case every character. -/
def pyLower (s : String) : String :=
  ⟨s.data.map Char.toLower⟩

/-- The `ASK_NAME` branch of `wizard_handler` in `bot.py`: the message
text is stripped; a text of length < 2 re-prompts and leaves the session
at `ASK_NAME` with unchanged data, otherwise the name is stored and the
session advances to `ASK_ASSIGNEE`. -/
def wizard_ask_name (rawtext : String) (data : WizData) : Step × WizData :=
  let text := pyStrip rawtext
  if text.length < 2 then (Step.ASK_NAME, data)
  else (Step.ASK_ASSIGNEE, { data with name := some text })

/-- The `ASK_ASSIGNEE` branch of `wizard_handler` in `bot.py`: on the
(lower-cased) answer "rotate" it stores mode "rotate" and the result of
`next_rotate_person(advance=True)`; otherwise mode "fixed" and the text
itself.  Either way the session advances to `ASK_CATEGORY`. -/
def wizard_ask_assignee (rawtext : String) (data : WizData) (db : DB) :
    Step × WizData × DB :=
  let text := pyStrip rawtext
  if pyLower text = "rotate" then
    let (person, db') := next_rotate_person true db
    (Step.ASK_CATEGORY,
      { data with mode := some "rotate", assignee := some person }, db')
  else
    (Step.ASK_CATEGORY,
      { data with mode := some "fixed", assignee := some text }, db)

/-- The terminal `ASK_TIME` insert of `wizard_handler` in `bot.py`: the
chore row built from the wizard blob, with `last_done`, `last_reminded`
and `skip_until` all NULL. -/
def wizard_insert_chore (newid : Nat) (data : WizData) (time : String) : Chore :=
  { id := newid, name := data.name.getD "", category := data.category,
    mode := data.mode.getD "", assignee := data.assignee.getD "",
    interval_days := data.interval_days.getD 0,
    start_date := data.start_date, time := time,
    last_done := none, last_reminded := none, skip_until := none }

/-- Sample chore used by concrete witnesses. -/
def sampleChore : Chore :=
  { id := 3, name := "mopping", category := some "dailycleaning",
    mode := "fixed", assignee := "Alice", interval_days := 7,
    start_date := none, time := "21:00", last_done := some 0,
    last_reminded := none, skip_until := none }

/-- Sample store used by concrete witnesses. -/
def sampleDB : DB :=
  { household := { person1 := some "Alice", person2 := some "Bob",
                   rotate_index := 0 },
    chores := [sampleChore],
    completions := [] }

/-- C1: the next due date is last-done plus the interval when a last-done
date exists; otherwise the start date when set; otherwise today — for
every combination of the three fields. -/
theorem next_due_date_cases (today interval : Int)
    (sd ld : Option Int) :
    (∀ d, ld = some d →
      next_due_date today sd ld interval = d + interval) ∧
    (∀ s, ld = none → sd = some s →
      next_due_date today sd ld interval = s) ∧
    (ld = none → sd = none →
      next_due_date today sd ld interval = today) := by
  refine ⟨?_, ?_, ?_⟩
  · intro d hd; subst hd; rfl
  · intro s hld hsd; subst hld; subst hsd; rfl
  · intro hld hsd; subst hld; subst hsd; rfl

/-- Witness for C1 at concrete inputs covering all three cases. -/
theorem next_due_date_cases_witness :
    next_due_date 5 (some 2) (some 10) 7 = 17 ∧
    next_due_date 5 (some 2) none 7 = 2 ∧
    next_due_date 5 none none 7 = 5 := by
  refine ⟨?_, ?_, ?_⟩
  · exact (next_due_date_cases 5 7 (some 2) (some 10)).1 10 rfl
  · exact (next_due_date_cases 5 7 (some 2) none).2.1 2 rfl rfl
  · exact (next_due_date_cases 5 7 none none).2.2 rfl rfl

/-- C2: for a chore last completed on day D with interval N and no skip,
`days_until_due` is 0 on day D+N (and the chore is due), -1 on day
D+N+1 (overdue, still due), and 1 on day D+N-1 (not due). -/
theorem days_until_due_boundary (c : Chore) (D N : Int)
    (hld : c.last_done = some D) (hint : c.interval_days = N)
    (hskip : c.skip_until = none) :
    days_until_due (D + N) c = 0 ∧ chore_is_due (D + N) c = true ∧
    days_until_due (D + N + 1) c = -1 ∧
    chore_is_due (D + N + 1) c = true ∧
    days_until_due (D + N - 1) c = 1 ∧
    chore_is_due (D + N - 1) c = false := by
  have hdue : ∀ t : Int, days_until_due t c = D + N - t := by
    intro t
    simp [days_until_due, next_due_date, hld, hint]
  have hskip' : ∀ t : Int, c.skip_until ≠ some t := by
    intro t; rw [hskip]; exact fun h => Option.noConfusion h
  refine ⟨?_, ?_, ?_, ?_, ?_, ?_⟩
  · rw [hdue]; ring
  · simp [chore_is_due, hskip' (D + N), hdue]
  · rw [hdue]; ring
  · simp [chore_is_due, hskip' (D + N + 1), hdue]
  · rw [hdue]; ring
  · simp [chore_is_due, hskip' (D + N - 1), hdue]

/-- Witness for C2: the "mopping" scenario, last done on day 0 with
interval 7 (day 0 standing for 2024-01-01, day 7 for 2024-01-08). -/
theorem days_until_due_boundary_witness :
    days_until_due 7 sampleChore = 0 ∧
    chore_is_due 7 sampleChore = true ∧
    days_until_due 8 sampleChore = -1 ∧
    chore_is_due 8 sampleChore = true ∧
    days_until_due 6 sampleChore = 1 ∧
    chore_is_due 6 sampleChore = false := by
  have h := days_until_due_boundary sampleChore 0 7 rfl rfl rfl
  simpa using h

/-- Helper: the row update inside `record_completion` never touches the
assignee column. -/
theorem mark_done_row_assignee (cid : Nat) (t : Int) (ch : Chore) :
    (mark_done_row cid t ch).assignee = ch.assignee := by
  unfold mark_done_row
  split <;> rfl

/-- C3: completing an existing chore returns success, appends exactly one
completion row snapshotting the chore's name and assignee together with
the completer and date, and leaves every chore's stored assignee
unchanged — for any completer, equal to the assignee or not. -/
theorem record_completion_appends_one (db : DB) (cid : Nat)
    (doer : String) (today : Int) (now : Nat) (c : Chore)
    (hfound : db.chores.find? (fun ch => ch.id = cid) = some c) :
    (record_completion cid doer today now db).1
      = Except.ok (c.name, c.assignee, doer, c.interval_days) ∧
    (record_completion cid doer today now db).2.completions
      = db.completions ++
        [{ chore_id := cid, chore_name := c.name, assigned_to := c.assignee,
           completed_by := doer, completed_on := today,
           completed_at := now }] ∧
    (record_completion cid doer today now db).2.completions.length
      = db.completions.length + 1 ∧
    (record_completion cid doer today now db).2.chores.map
        (fun ch => ch.assignee)
      = db.chores.map (fun ch => ch.assignee) := by
  refine ⟨?_, ?_, ?_, ?_⟩
  · simp [record_completion, hfound]
  · simp [record_completion, hfound]
  · simp [record_completion, hfound]
  · simp only [record_completion, hfound, List.map_map]
    exact List.map_congr_left (fun ch _ => mark_done_row_assignee cid today ch)

/-- Witness for C3: Bob (not the assignee Alice) completes chore 3 in the
sample store; one row is appended and the assignee stays Alice. -/
theorem record_completion_appends_one_witness :
    (record_completion 3 "Bob" 7 100 sampleDB).1
      = Except.ok ("mopping", "Alice", "Bob", 7) ∧
    (record_completion 3 "Bob" 7 100 sampleDB).2.completions
      = [{ chore_id := 3, chore_name := "mopping", assigned_to := "Alice",
           completed_by := "Bob", completed_on := 7, completed_at := 100 }] ∧
    (record_completion 3 "Bob" 7 100 sampleDB).2.completions.length
      = 0 + 1 ∧
    (record_completion 3 "Bob" 7 100 sampleDB).2.chores.map
        (fun ch => ch.assignee)
      = ["Alice"] := by
  have h := record_completion_appends_one sampleDB 3 "Bob" 7 100
    sampleChore (by rfl)
  simpa [sampleDB, sampleChore] using h

/-- C4: with both household persons set, drawing a rotation assignee
returns person1 exactly when the cursor is even (person2 when odd) and
increments the cursor by one, leaving the persons unchanged — so
successive draws alternate P1, P2, P1, P2, … from cursor 0. -/
theorem next_rotate_person_alternates (db : DB) (p1 p2 : String)
    (h1 : db.household.person1 = some p1)
    (h2 : db.household.person2 = some p2) :
    (next_rotate_person true db).1
      = (if db.household.rotate_index % 2 = 0 then p1 else p2) ∧
    (next_rotate_person true db).2.household.rotate_index
      = db.household.rotate_index + 1 ∧
    (next_rotate_person true db).2.household.person1 = some p1 ∧
    (next_rotate_person true db).2.household.person2 = some p2 ∧
    (next_rotate_person true db).2.chores = db.chores ∧
    (next_rotate_person true db).2.completions = db.completions := by
  refine ⟨?_, ?_, ?_, ?_, ?_, ?_⟩ <;>
    simp [next_rotate_person, h1, h2]

/-- Witness for C4: two successive draws on the sample store (cursor 0)
yield Alice then Bob, the cursor moving 0 → 1 → 2. -/
theorem next_rotate_person_alternates_witness :
    (next_rotate_person true sampleDB).1 = "Alice" ∧
    (next_rotate_person true sampleDB).2.household.rotate_index = 1 ∧
    (next_rotate_person true (next_rotate_person true sampleDB).2).1
      = "Bob" ∧
    (next_rotate_person true
        (next_rotate_person true sampleDB).2).2.household.rotate_index
      = 2 := by
  have h := next_rotate_person_alternates sampleDB "Alice" "Bob" rfl rfl
  have h2 := next_rotate_person_alternates
    (next_rotate_person true sampleDB).2 "Alice" "Bob" h.2.2.1 h.2.2.2.1
  refine ⟨?_, ?_, ?_, ?_⟩
  · simpa [sampleDB] using h.1
  · simpa [sampleDB] using h.2.1
  · have hidx : (next_rotate_person true sampleDB).2.household.rotate_index
        = 1 := by simpa [sampleDB] using h.2.1
    simpa [hidx] using h2.1
  · have hidx : (next_rotate_person true sampleDB).2.household.rotate_index
        = 1 := by simpa [sampleDB] using h.2.1
    simpa [hidx] using h2.2.1

/-- C5: `/skip` on day D stamps `skip_until := D` on the target chore,
such a chore is not due on day D, and on every later day its due status
equals what it would be with no skip stamp at all — for every chore and
every date. -/
theorem skip_suppresses_today_only (db : DB) (cid : Nat) (D : Int)
    (c : Chore)
    (hfound : db.chores.any (fun ch => ch.id = cid) = true) :
    (cmd_skip cid D db).2.chores
      = db.chores.map (fun ch =>
          if ch.id = cid then { ch with skip_until := some D } else ch) ∧
    chore_is_due D { c with skip_until := some D } = false ∧
    (∀ t, D < t →
      chore_is_due t { c with skip_until := some D }
        = chore_is_due t { c with skip_until := none }) := by
  refine ⟨?_, ?_, ?_⟩
  · simp [cmd_skip, hfound]
  · simp [chore_is_due]
  · intro t ht
    have hne : ¬ (D = t) := by omega
    simp [chore_is_due, days_until_due, hne]

/-- Witness for C5: skipping the sample chore (due on day 7) on day 7
suppresses it that day; on day 8 it is due again exactly as with no
skip. -/
theorem skip_suppresses_today_only_witness :
    (cmd_skip 3 7 sampleDB).2.chores
      = [{ sampleChore with skip_until := some 7 }] ∧
    chore_is_due 7 { sampleChore with skip_until := some 7 } = false ∧
    chore_is_due 8 { sampleChore with skip_until := some 7 }
      = chore_is_due 8 { sampleChore with skip_until := none } := by
  have h := skip_suppresses_today_only sampleDB 3 7 sampleChore (by rfl)
  refine ⟨?_, h.2.1, h.2.2 8 (by norm_num)⟩
  simpa [sampleDB] using h.1

/-- A concrete chore carrying a `last_reminded` stamp, for the skip
counterexample. -/
def remindedChore : Chore :=
  { sampleChore with last_reminded := some 5 }

/-- A store holding `remindedChore`, for the skip counterexample. -/
def remindedDB : DB :=
  { sampleDB with chores := [remindedChore] }

/-- C6 counterexample: skipping chore 3 (which has `last_reminded = 5`)
leaves its last-reminded stamp at 5 — `/skip` only writes `skip_until`
and does not clear the flag, refuting the claim for the skip half. -/
theorem cmd_skip_keeps_last_reminded :
    (cmd_skip 3 6 remindedDB).2.chores.map (fun ch => ch.last_reminded)
      = [some 5] ∧
    (callback_skip 3 6 remindedDB).chores.map (fun ch => ch.last_reminded)
      = [some 5] := by
  constructor <;> rfl

/-- C6 amended: completing a chore clears its last-reminded flag, while
skipping (command or button) writes only `skip_until` and leaves every
chore's last-reminded flag unchanged. -/
theorem completion_clears_reminded_skip_does_not (db : DB) (cid : Nat)
    (doer : String) (today : Int) (now : Nat) (c : Chore)
    (hfound : db.chores.find? (fun ch => ch.id = cid) = some c) :
    (∀ ch ∈ (record_completion cid doer today now db).2.chores,
      ch.id = cid → ch.last_reminded = none) ∧
    (cmd_skip cid today db).2.chores.map (fun ch => ch.last_reminded)
      = db.chores.map (fun ch => ch.last_reminded) ∧
    (callback_skip cid today db).chores.map (fun ch => ch.last_reminded)
      = db.chores.map (fun ch => ch.last_reminded) := by
  refine ⟨?_, ?_, ?_⟩
  · intro ch hch hid
    simp only [record_completion, hfound, List.mem_map] at hch
    obtain ⟨ch0, _, hmk⟩ := hch
    by_cases h0 : ch0.id = cid
    · rw [← hmk]; simp [mark_done_row, h0]
    · rw [← hmk] at hid
      simp [mark_done_row, h0] at hid
  · unfold cmd_skip
    split
    · simp only [List.map_map]
      refine List.map_congr_left (fun ch _ => ?_)
      by_cases h0 : ch.id = cid <;> simp [h0]
    · rfl
  · simp only [callback_skip, List.map_map]
    refine List.map_congr_left (fun ch _ => ?_)
    by_cases h0 : ch.id = cid <;> simp [h0]

/-- Witness for the amended C6 on the reminded sample store: completion
clears the flag, skip leaves it at 5. -/
theorem completion_clears_reminded_skip_does_not_witness :
    (∀ ch ∈ (record_completion 3 "Bob" 6 100 remindedDB).2.chores,
      ch.id = 3 → ch.last_reminded = none) ∧
    (cmd_skip 3 6 remindedDB).2.chores.map (fun ch => ch.last_reminded)
      = remindedDB.chores.map (fun ch => ch.last_reminded) ∧
    (callback_skip 3 6 remindedDB).chores.map (fun ch => ch.last_reminded)
      = remindedDB.chores.map (fun ch => ch.last_reminded) :=
  completion_clears_reminded_skip_does_not remindedDB 3 "Bob" 6 100
    remindedChore (by rfl)

/-- C7: a reminder fires for a chore exactly when its configured time
equals the current time, it has not been reminded today, and it is due;
firing stamps today as last-reminded, any chore already stamped today
can never fire again that day, and a chore that does not fire is left
unchanged — so the minute scan sends at most one reminder per chore per
calendar day. -/
theorem reminder_at_most_once_per_day (now now2 : String) (today : Int)
    (c : Chore) (db : DB) :
    ((reminder_job now today db).2.chores
      = db.chores.map (fun ch => (reminder_step now today ch).2)) ∧
    ((reminder_step now today c).1 = true ↔
      (c.time = now ∧ ¬ c.last_reminded = some today ∧
        chore_is_due today c = true)) ∧
    ((reminder_step now today c).1 = true →
      (reminder_step now today c).2.last_reminded = some today) ∧
    (c.last_reminded = some today →
      (reminder_step now2 today c).1 = false) ∧
    ((reminder_step now today c).1 = false →
      (reminder_step now today c).2 = c) := by
  have hjob : (reminder_job now today db).2.chores
      = db.chores.map (fun ch => (reminder_step now today ch).2) := by
    simp [reminder_job, List.map_map]
  have h3 : c.last_reminded = some today →
      (reminder_step now2 today c).1 = false := by
    intro hrem
    by_cases h2 : c.time = now2 <;> simp [reminder_step, h2, hrem]
  by_cases htime : c.time = now
  · by_cases hrem : c.last_reminded = some today
    · exact ⟨hjob, by simp [reminder_step, htime, hrem],
        by simp [reminder_step, htime, hrem], h3,
        by simp [reminder_step, htime, hrem]⟩
    · by_cases hdue : chore_is_due today c = true
      · exact ⟨hjob, by simp [reminder_step, htime, hrem, hdue],
          by simp [reminder_step, htime, hrem, hdue], h3,
          by simp [reminder_step, htime, hrem, hdue]⟩
      · exact ⟨hjob, by simp [reminder_step, htime, hrem, hdue],
          by simp [reminder_step, htime, hrem, hdue], h3,
          by simp [reminder_step, htime, hrem, hdue]⟩
  · exact ⟨hjob, by simp [reminder_step, htime],
      by simp [reminder_step, htime], h3,
      by simp [reminder_step, htime]⟩

/-- Witness for C7: on the sample chore at its due day and configured
time, the reminder fires once and a second run the same day does not
fire. -/
theorem reminder_at_most_once_per_day_witness :
    (reminder_step "21:00" 7 sampleChore).1 = true ∧
    (reminder_step "21:00" 7 sampleChore).2.last_reminded = some 7 ∧
    (reminder_step "21:00" 7
      (reminder_step "21:00" 7 sampleChore).2).1 = false := by
  have h := reminder_at_most_once_per_day "21:00" "21:00" 7 sampleChore
    sampleDB
  have hfire : (reminder_step "21:00" 7 sampleChore).1 = true := by
    exact h.2.1.mpr ⟨rfl, by simp [sampleChore], by rfl⟩
  have hstamp := h.2.2.1 hfire
  have h2 := reminder_at_most_once_per_day "21:00" "21:00" 7
    (reminder_step "21:00" 7 sampleChore).2 sampleDB
  exact ⟨hfire, hstamp, h2.2.2.2.1 hstamp⟩

/-- C8 counterexample: no chore with id 99 exists in the sample store,
yet `/remove 99` does not report a not-found error — it replies
"Removed." unconditionally, refuting the claim for `/remove`. -/
theorem cmd_remove_reports_no_not_found :
    sampleDB.chores.any (fun ch => ch.id = 99) = false ∧
    (cmd_remove 99 sampleDB).1 ≠ Reply.notFound := by
  refine ⟨by rfl, ?_⟩
  intro h
  exact Reply.noConfusion h

/-- C8 amended: on a nonexistent chore id, `/done` and the button
completion path report "Chore not found." and `/skip` reports not found,
each leaving the store unchanged; `/remove` also leaves the store
unchanged but replies "Removed." without any existence check. -/
theorem missing_id_reported_no_state_change (db : DB) (cid : Nat)
    (doer : String) (today : Int) (now : Nat)
    (habsent : ∀ ch ∈ db.chores, ¬ ch.id = cid) :
    record_completion cid doer today now db
      = (Except.error "Chore not found.", db) ∧
    cmd_skip cid today db = (Reply.notFound, db) ∧
    cmd_remove cid db = (Reply.removed, db) := by
  have hfind : db.chores.find? (fun ch => ch.id = cid) = none := by
    rw [List.find?_eq_none]
    intro ch hch
    simpa using habsent ch hch
  have hany : db.chores.any (fun ch => ch.id = cid) = false := by
    rw [Bool.eq_false_iff]
    intro h
    obtain ⟨ch, hch, hid⟩ := List.any_eq_true.mp h
    exact habsent ch hch (by simpa using hid)
  refine ⟨?_, ?_, ?_⟩
  · simp [record_completion, hfind]
  · simp [cmd_skip, hany]
  · have hfilter : db.chores.filter (fun ch => !decide (ch.id = cid))
        = db.chores := by
      rw [List.filter_eq_self]
      intro ch hch
      simpa using habsent ch hch
    simp [cmd_remove, hfilter]

/-- Witness for the amended C8 at id 99 on the sample store. -/
theorem missing_id_reported_no_state_change_witness :
    record_completion 99 "Bob" 7 100 sampleDB
      = (Except.error "Chore not found.", sampleDB) ∧
    cmd_skip 99 7 sampleDB = (Reply.notFound, sampleDB) ∧
    cmd_remove 99 sampleDB = (Reply.removed, sampleDB) := by
  refine missing_id_reported_no_state_change sampleDB 99 "Bob" 7 100 ?_
  intro ch hch
  simp [sampleDB] at hch
  subst hch
  decide

/-- C9 counterexample: the single-character name "x" is non-empty, yet
the wizard re-prompts and stays at ASK_NAME — names of length 1 are
rejected, refuting "every non-empty chore name is accepted". -/
theorem wizard_rejects_one_char_name :
    pyStrip "x" ≠ "" ∧
    wizard_ask_name "x" WizData.empty = (Step.ASK_NAME, WizData.empty) := by
  constructor
  · decide
  · rfl

/-- C9 amended: a name whose trimmed text has at least two characters is
accepted and advances the session to ASK_ASSIGNEE storing the trimmed
name; a trimmed text of fewer than two characters (empty or a single
character) re-prompts and leaves the session at ASK_NAME with data
unchanged. -/
theorem wizard_ask_name_validation (rawtext : String) (data : WizData) :
    (2 ≤ (pyStrip rawtext).length →
      wizard_ask_name rawtext data
        = (Step.ASK_ASSIGNEE, { data with name := some (pyStrip rawtext) })) ∧
    ((pyStrip rawtext).length < 2 →
      wizard_ask_name rawtext data = (Step.ASK_NAME, data)) := by
  constructor
  · intro h
    have hnl : ¬ (pyStrip rawtext).length < 2 := by omega
    simp [wizard_ask_name, hnl]
  · intro h
    simp [wizard_ask_name, h]

/-- Witness for the amended C9: "mopping" (length 7) advances, "x"
(length 1) re-prompts. -/
theorem wizard_ask_name_validation_witness :
    wizard_ask_name "mopping" WizData.empty
      = (Step.ASK_ASSIGNEE, { WizData.empty with name := some "mopping" }) ∧
    wizard_ask_name "x" WizData.empty = (Step.ASK_NAME, WizData.empty) := by
  constructor
  · exact (wizard_ask_name_validation "mopping" WizData.empty).1 (by decide)
  · exact (wizard_ask_name_validation "x" WizData.empty).2 (by decide)

/-- C10: answering "rotate" at the assignee step while either household
person is unset stores the literal string "rotate" as the assignee,
leaves the store (rotation cursor included) untouched, still advances
the wizard to ASK_CATEGORY, and the chore finally inserted from that
data carries assignee "rotate". -/
theorem rotate_without_people_stores_literal (data : WizData) (db : DB)
    (newid : Nat) (time : String)
    (h : db.household.person1 = none ∨ db.household.person2 = none) :
    (wizard_ask_assignee "rotate" data db).1 = Step.ASK_CATEGORY ∧
    (wizard_ask_assignee "rotate" data db).2.1.assignee = some "rotate" ∧
    (wizard_ask_assignee "rotate" data db).2.1.mode = some "rotate" ∧
    (wizard_ask_assignee "rotate" data db).2.2 = db ∧
    (wizard_insert_chore newid
        (wizard_ask_assignee "rotate" data db).2.1 time).assignee
      = "rotate" := by
  have hlit : pyLower (pyStrip "rotate") = "rotate" := by decide
  have hrot : next_rotate_person true db = ("rotate", db) := by
    rcases h with h1 | h2
    · cases hp2 : db.household.person2 <;>
        simp [next_rotate_person, h1, hp2]
    · cases hp1 : db.household.person1 <;>
        simp [next_rotate_person, hp1, h2]
  refine ⟨?_, ?_, ?_, ?_, ?_⟩ <;>
    simp [wizard_ask_assignee, hlit, hrot, wizard_insert_chore]

/-- Witness for C10: the sample store with person2 cleared; the answer
"rotate" stores the literal assignee and does not advance the cursor. -/
theorem rotate_without_people_stores_literal_witness :
    (wizard_ask_assignee "rotate" WizData.empty
      { sampleDB with household :=
          { sampleDB.household with person2 := none } }).2.1.assignee
      = some "rotate" ∧
    (wizard_ask_assignee "rotate" WizData.empty
      { sampleDB with household :=
          { sampleDB.household with person2 := none } }).2.2
      = { sampleDB with household :=
          { sampleDB.household with person2 := none } } :=
  let db : DB := { sampleDB with household :=
    { sampleDB.household with person2 := none } }
  have h := rotate_without_people_stores_literal WizData.empty db 1 "21:00"
    (Or.inr rfl)
  ⟨h.2.1, h.2.2.2.1⟩

end ChoreBot
